import Mathlib

/-!
Verification development for the w9-mail Identity, Authorization and
Sender-Resolution subsystem.

The repository ships the Next.js frontend (src/frontend, src/unnamed) together
with the README and installer; the Rust backend (backend/src/auth.rs,
handlers.rs, mailer.rs listed in the README architecture section) is not part
of the shipped sources. Backend operations are therefore modelled from the
specification text, while everything the frontend itself computes (the
session-storage loader, the documented API surface in the docs page) is
embedded directly from the TypeScript sources.
-/

namespace W9Mail

/-- Embedded from the repository sources: the role vocabulary
(`SessionRole = admin | dev | user` in src/unnamed/part_004). -/
inductive Role where
  | admin
  | dev
  | user
deriving DecidableEq, Repr

/-- Modelled from the spec (section 7): the error taxonomy of the subsystem. -/
inductive Err where
  | invalidCredentials
  | unauthenticated
  | forbidden
  | validationError
  | conflict
  | notFound
  | tokenExpired
  | senderNotFound
  | deliveryFailed
deriving DecidableEq, Repr

/-- Modelled from the spec (section 3, User): identity row of the credential
store. -/
structure User where
  id : Nat
  email : String
  passwordHash : String
  role : Role
  mustChangePassword : Bool
deriving DecidableEq, Repr

/-- Modelled from the spec (section 3, Account): a Microsoft-mailbox
credential. -/
structure Account where
  id : Nat
  email : String
  displayName : String
  password : String
  isActive : Bool
  ownerId : Option Nat
  isPublic : Bool
deriving DecidableEq, Repr

/-- Modelled from the spec (section 3, Alias): a send-as address backed by a
parent Account credential. The field is named `aliasEmail` as in the frontend
`EmailAlias` interface (src/frontend/app/manage/page.tsx). -/
structure EmailAlias where
  id : Nat
  aliasEmail : String
  displayName : Option String
  isActive : Bool
  accountId : Nat
  ownerId : Option Nat
  isPublic : Bool
deriving DecidableEq, Repr

/-- Modelled from the spec (section 3, PendingUser): a single-use signup
verification token row with its creation time. -/
structure PendingUser where
  token : String
  email : String
  passwordHash : String
  createdAt : Nat
deriving DecidableEq, Repr

/-- Modelled from the spec (section 3, PasswordResetToken): a single-use
password-reset token row. -/
structure ResetToken where
  token : String
  userId : Nat
  createdAt : Nat
deriving DecidableEq, Repr

/-- Embedded from the frontend `DefaultSender` interface and the spec
(section 3, DefaultSenderSetting): the sender kind tag. -/
inductive SenderType where
  | account
  | alias
deriving DecidableEq, Repr

/-- Modelled from the spec (section 3, DefaultSenderSetting): the singleton
setting referencing an Account or Alias by id. -/
structure DefaultSenderSetting where
  senderType : SenderType
  senderId : Nat
deriving DecidableEq, Repr

/-- Modelled from the spec (section 2, Credential Store): the persistent state
the backend operations read and mutate. -/
structure Store where
  users : List User
  accounts : List Account
  aliases : List EmailAlias
  pending : List PendingUser
  resets : List ResetToken
  defaultSender : Option DefaultSenderSetting
deriving DecidableEq, Repr

/-- Modelled from the spec (section 6): an authenticated principal as carried
by a session credential, `{user_id, role}` plus the forced-change flag the
authorization gate consults. -/
structure Principal where
  userId : Nat
  role : Role
  mustChangePassword : Bool
deriving DecidableEq, Repr

/-- Modelled from the spec (section 3): the signup/reset token TTL of
30 minutes, in seconds. -/
def tokenTtl : Nat := 30 * 60

/-- Modelled from the spec (section 2, Password Hasher): the Argon2-class
one-way hash, abstracted as an injective tagging function; verification is
equality with the stored tag. -/
def hashPw (s : String) : String := "argon2:" ++ s

/-- Modelled from the spec (section 4.1): verification of a supplied password
against a stored hash. -/
def verifyPw (supplied storedHash : String) : Bool := hashPw supplied == storedHash

def findUserById (st : Store) (i : Nat) : Option User :=
  st.users.find? (fun u => u.id == i)

def findUserByEmail (st : Store) (e : String) : Option User :=
  st.users.find? (fun u => u.email == e)

def findAccountById (st : Store) (i : Nat) : Option Account :=
  st.accounts.find? (fun a => a.id == i)

def findAccountByEmail (st : Store) (e : String) : Option Account :=
  st.accounts.find? (fun a => a.email == e)

def findAliasById (st : Store) (i : Nat) : Option EmailAlias :=
  st.aliases.find? (fun a => a.id == i)

def findAliasByEmail (st : Store) (e : String) : Option EmailAlias :=
  st.aliases.find? (fun a => a.aliasEmail == e)

/-- Modelled from the spec (section 4.6, ResolveSender): the resolved sending
identity, a credential Account plus the display identity and an alias flag. -/
structure ResolvedSender where
  credentialAccount : Account
  displayIdentity : String
  isAlias : Bool
deriving DecidableEq, Repr

/-- Modelled from the spec (section 4.6): `ResolveSender(address)` looks the
address up first against Account.email, then Alias.alias_email, and fails
`SenderNotFound` if no match or the matched entity (and, for aliases, its
parent Account) is not `is_active`. -/
def resolveSender (st : Store) (address : String) : Except Err ResolvedSender :=
  match findAccountByEmail st address with
  | some acc =>
      if acc.isActive then
        Except.ok { credentialAccount := acc, displayIdentity := acc.displayName, isAlias := false }
      else
        Except.error Err.senderNotFound
  | none =>
      match findAliasByEmail st address with
      | some al =>
          if al.isActive then
            match findAccountById st al.accountId with
            | some parent =>
                if parent.isActive then
                  Except.ok { credentialAccount := parent,
                              displayIdentity := (al.displayName.getD al.aliasEmail),
                              isAlias := true }
                else
                  Except.error Err.senderNotFound
            | none => Except.error Err.senderNotFound
          else
            Except.error Err.senderNotFound
      | none => Except.error Err.senderNotFound

/-- Embedded from src/frontend/app/docs/page.tsx lines 167 to 170: the POST
/api/send documentation states the endpoint is available to user, dev, and
admin roles and requires a bearer credential written there as a
user, dev or admin jwt. The README role table likewise gives the admin role
full access to all features. -/
def docsSendPermittedRoles : List Role := [Role.user, Role.dev, Role.admin]

/-- Embedded from src/frontend/app/docs/page.tsx: the documented role check of
the dispatch gateway; a role is permitted when it appears in the documented
role list. -/
def docsSendRoleAllowed (r : Role) : Bool := docsSendPermittedRoles.contains r

/-- Modelled from the spec (section 4.7), for comparison with the documented
behavior: the role check as the spec phrases it, with the admin role rejected
for user-facing sends and only user and dev permitted. -/
def specSendRoleAllowed (r : Role) : Bool :=
  match r with
  | Role.admin => false
  | Role.dev => true
  | Role.user => true

/-- Modelled from the spec (section 4.7): a send request body as documented in
the docs page, with optional comma-separated cc and bcc lists. -/
structure SendRequest where
  fromAddr : String
  toAddr : String
  subject : String
  body : String
  cc : Option String
  bcc : Option String
  isHtml : Bool
deriving DecidableEq, Repr

/-- Modelled from the spec (section 4.7): splitting a character sequence at
commas, accumulating the current segment in reverse. -/
def splitCommaAux : List Char → List Char → List (List Char)
  | [], acc => [acc.reverse]
  | c :: rest, acc =>
      if c = ',' then acc.reverse :: splitCommaAux rest []
      else splitCommaAux rest (c :: acc)

/-- Modelled from the spec (section 4.7): whitespace trimming of one address
segment. -/
def trimChars (cs : List Char) : List Char :=
  ((cs.dropWhile Char.isWhitespace).reverse.dropWhile Char.isWhitespace).reverse

/-- Modelled from the spec (section 4.7): comma-separated address lists are
split and trimmed without further well-formedness validation. -/
def parseAddrList (s : String) : List String :=
  (splitCommaAux s.data []).map (fun cs => String.mk (trimChars cs))

/-- Modelled from the spec (section 4.7): an optional address list field parses
to the empty list when absent. -/
def parseOptAddrList (s : Option String) : List String :=
  match s with
  | none => []
  | some t => parseAddrList t

/-- Modelled from the spec (section 4.7): the composed message handed to the
external SMTP collaborator together with the resolved credential. -/
structure SendResult where
  resolved : ResolvedSender
  toList : List String
  ccList : List String
  bccList : List String
  subject : String
  body : String
  isHtml : Bool
deriving DecidableEq, Repr

/-- Modelled from the spec (section 4.7) with the permitted-role set embedded
from the API documentation in src/frontend/app/docs/page.tsx lines 167 to 170
(user, dev and admin are all permitted, contradicting the admin-rejection
sentence of the spec). The gateway checks the must-change-password gate of
section 4.1, checks the role, resolves the from address via ResolveSender, and
on success hands the resolved credential and message to the SMTP collaborator;
on resolution failure it returns the error without attempting delivery. -/
def send (st : Store) (p : Principal) (req : SendRequest) : Except Err SendResult :=
  if p.mustChangePassword then
    Except.error Err.forbidden
  else if docsSendRoleAllowed p.role then
    match resolveSender st req.fromAddr with
    | Except.error e => Except.error e
    | Except.ok rs =>
        Except.ok { resolved := rs,
                    toList := parseAddrList req.toAddr,
                    ccList := parseOptAddrList req.cc,
                    bccList := parseOptAddrList req.bcc,
                    subject := req.subject,
                    body := req.body,
                    isHtml := req.isHtml }
  else
    Except.error Err.forbidden

/-- Modelled from the spec (sections 4.3 and 8) and the docs page note that the
backend blocks deleting the currently authenticated admin
(src/frontend/app/docs/page.tsx lines 227 to 230): DELETE /users/:id is
admin-only, and a target id equal to the acting principal user id is refused
before the row is touched; the check is against the acting principal user id,
not the target role. Errors leave the store unchanged. -/
def deleteUser (st : Store) (p : Principal) (targetId : Nat) : Except Err Unit × Store :=
  if p.role != Role.admin then
    (Except.error Err.forbidden, st)
  else if targetId == p.userId then
    (Except.error Err.forbidden, st)
  else
    match findUserById st targetId with
    | none => (Except.error Err.notFound, st)
    | some _ =>
        (Except.ok (), { st with users := st.users.filter (fun u => u.id != targetId) })

/-- Modelled from the spec (section 4.1, ChangePassword): re-verifies the
current password against the stored hash, rejects with ValidationError if the
new password is shorter than 8 characters, and on success replaces the hash
and clears must_change_password. -/
def changePasswordFn (u : User) (current new : String) : Except Err User :=
  if verifyPw current u.passwordHash then
    if new.length < 8 then
      Except.error Err.validationError
    else
      Except.ok { u with passwordHash := hashPw new, mustChangePassword := false }
  else
    Except.error Err.invalidCredentials

/-- Modelled from the spec (section 4.1): the actions a session-authenticated
user can request; sendMail stands for a POST /send call and other for any
further non-ChangePassword action. -/
inductive UAction where
  | changePassword (current new : String)
  | sendMail
  | other (name : String)
deriving DecidableEq, Repr

/-- Modelled from the spec (section 4.1): recognizer for the one action the
forced-change gate lets through. -/
def isChangePw (a : UAction) : Bool :=
  match a with
  | UAction.changePassword _ _ => true
  | _ => false

/-- Modelled from the spec (section 4.1 gate): one session-authenticated step
of the acting user. While must_change_password is true the Authorization
Engine blocks every action except ChangePassword with Forbidden and the user
row is untouched; a ChangePassword attempt runs the section 4.1 logic; other
actions succeed without touching the user row. -/
def userStep (u : User) (a : UAction) : Except Err Unit × User :=
  if u.mustChangePassword && !(isChangePw a) then
    (Except.error Err.forbidden, u)
  else
    match a with
    | UAction.changePassword current new =>
        match changePasswordFn u current new with
        | Except.ok u' => (Except.ok (), u')
        | Except.error e => (Except.error e, u)
    | UAction.sendMail => (Except.ok (), u)
    | UAction.other _ => (Except.ok (), u)

/-- Modelled from the spec (section 4.1): a sequence of session-authenticated
requests by one user, run in order, collecting each outcome and threading the
user row. -/
def runUserTrace (u : User) (acts : List UAction) : List (Except Err Unit) × User :=
  match acts with
  | [] => ([], u)
  | a :: rest =>
      ((userStep u a).1 :: (runUserTrace (userStep u a).2 rest).1,
       (runUserTrace (userStep u a).2 rest).2)

/-- Modelled from the spec (section 4.4): removal of the PendingUser row keyed
by a token. -/
def removePending (st : Store) (tok : String) : Store :=
  { st with pending := st.pending.filter (fun pu => pu.token != tok) }

def findPendingByToken (st : Store) (tok : String) : Option PendingUser :=
  st.pending.find? (fun pu => pu.token == tok)

/-- Modelled from the spec (section 4.4, Verify): atomically reads-and-deletes
the PendingUser row keyed by the token; if absent or past the 30-minute TTL it
fails TokenExpired; otherwise it creates the User with role user and
must_change_password false. The read-and-delete is a single atomic step
against the store, so a concurrent call observes either the row present or the
row already gone. -/
def verify (st : Store) (tok : String) (now : Nat) (freshUserId : Nat) :
    Except Err Unit × Store :=
  match findPendingByToken st tok with
  | none => (Except.error Err.tokenExpired, st)
  | some pu =>
      if pu.createdAt + tokenTtl < now then
        (Except.error Err.tokenExpired, removePending st tok)
      else
        (Except.ok (),
          { removePending st tok with
              users := { id := freshUserId, email := pu.email,
                         passwordHash := pu.passwordHash, role := Role.user,
                         mustChangePassword := false } :: st.users })

/-- Modelled from the spec (section 6): whether an operation outcome is a
success. -/
def isOk (r : Except Err Unit) : Bool :=
  match r with
  | Except.ok _ => true
  | Except.error _ => false

/-- Modelled from the spec (section 4.4): a sequence of Verify calls executed
one atomic consumption step at a time; because consumption is atomic, any
concurrent interleaving of these calls is equivalent to running them in some
sequential order, which this runner captures. Each call is a token with its
arrival time; the result list records success as true. -/
def runVerifies (st : Store) (calls : List (String × Nat)) (nextId : Nat) :
    List Bool :=
  match calls with
  | [] => []
  | (tok, now) :: rest =>
      isOk (verify st tok now nextId).1 ::
        runVerifies (verify st tok now nextId).2 rest (nextId + 1)

/-- Modelled from the spec (section 4.4): the number of successes recorded for
calls that used a given token, pairing each call with its outcome. -/
def successesFor (t : String) : List (String × Nat) → List Bool → Nat
  | [], _ => 0
  | _, [] => 0
  | (tok, _) :: calls, b :: results =>
      (if tok == t && b then 1 else 0) + successesFor t calls results

/-- Modelled from the spec (section 4.5): removal of the PasswordResetToken row
keyed by a token. -/
def removeReset (st : Store) (tok : String) : Store :=
  { st with resets := st.resets.filter (fun rt => rt.token != tok) }

def findResetByToken (st : Store) (tok : String) : Option ResetToken :=
  st.resets.find? (fun rt => rt.token == tok)

/-- Modelled from the spec (section 4.5, ConfirmReset): validates the new
password length, then atomically consumes the single-use token (conditional
delete that fails if the row is already gone); on success updates the stored
hash of the referenced user and clears must_change_password; on reuse or
expiry it fails TokenExpired. The check-and-invalidate is one atomic step
against the store, as section 5 requires. -/
def confirmReset (st : Store) (tok newPassword : String) (now : Nat) :
    Except Err Unit × Store :=
  match findResetByToken st tok with
  | none => (Except.error Err.tokenExpired, st)
  | some rt =>
      if rt.createdAt + tokenTtl < now then
        (Except.error Err.tokenExpired, removeReset st tok)
      else if newPassword.length < 8 then
        (Except.error Err.validationError, st)
      else
        (Except.ok (),
          { removeReset st tok with
              users := st.users.map (fun u =>
                if u.id == rt.userId then
                  { u with passwordHash := hashPw newPassword, mustChangePassword := false }
                else u) })

/-- Modelled from the spec (sections 4.5 and 5): N identical ConfirmReset calls
with the same token, password and arrival time, executed one atomic
consumption step at a time; atomicity makes every concurrent interleaving
equivalent to this sequential run. Results record success as true. -/
def runConfirmN (st : Store) (tok newPassword : String) (now : Nat) (n : Nat) :
    List Bool :=
  match n with
  | 0 => []
  | Nat.succ m =>
      isOk (confirmReset st tok newPassword now).1 ::
        runConfirmN (confirmReset st tok newPassword now).2 tok newPassword now m

/-- Modelled from the spec (section 4.6): whether the entity a
DefaultSenderSetting references exists and is currently active; the same
predicate is used by the setter validation and by the computed activeness the
getter reports. -/
def defaultTargetActive (st : Store) (t : SenderType) (i : Nat) : Bool :=
  match t with
  | SenderType.account =>
      match findAccountById st i with
      | some acc => acc.isActive
      | none => false
  | SenderType.alias =>
      match findAliasById st i with
      | some al => al.isActive
      | none => false

/-- Modelled from the spec (section 4.6) and the docs page default-sender
response (src/frontend/app/docs/page.tsx lines 232 to 244): the getter view of
the stored setting together with the activeness computed at read time. -/
structure DefaultSenderView where
  senderType : SenderType
  senderId : Nat
  isActive : Bool
deriving DecidableEq, Repr

/-- Modelled from the spec (section 4.6, SetDefaultSender): validates that the
referenced Account or Alias exists and is currently active before committing,
failing ValidationError otherwise and leaving the stored setting unchanged. -/
def setDefaultSender (st : Store) (t : SenderType) (i : Nat) :
    Except Err Unit × Store :=
  if defaultTargetActive st t i then
    (Except.ok (), { st with defaultSender := some { senderType := t, senderId := i } })
  else
    (Except.error Err.validationError, st)

/-- Modelled from the spec (section 4.6, GetDefaultSender): echoes the stored
setting and additionally reports the activeness of the referenced entity
computed at read time, so callers can detect drift. -/
def getDefaultSender (st : Store) : Option DefaultSenderView :=
  match st.defaultSender with
  | none => none
  | some s =>
      some { senderType := s.senderType, senderId := s.senderId,
             isActive := defaultTargetActive st s.senderType s.senderId }

/-- Modelled from the spec (sections 4.5 and 6): the JSON body of an API
response, a stable status plus a human-readable message. -/
structure ApiResponse where
  status : String
  message : String
deriving DecidableEq, Repr

/-- Modelled from the spec (section 4.5, RequestReset) and the docs page
(src/frontend/app/docs/page.tsx lines 90 to 103): always returns the same
generic ok response regardless of whether the email exists; when it exists a
PasswordResetToken is created (and a reset email is dispatched through the
default sender), when it does not exist the store is untouched. -/
def requestReset (st : Store) (email freshTok : String) (now : Nat) :
    ApiResponse × Store :=
  match findUserByEmail st email with
  | some u =>
      ({ status := "ok", message := "If the email exists, a reset link was sent." },
       { st with resets := { token := freshTok, userId := u.id, createdAt := now } :: st.resets })
  | none =>
      ({ status := "ok", message := "If the email exists, a reset link was sent." }, st)

/-- Embedded from src/unnamed/part_004 (SessionPayload in frontend/lib
session): the payload persisted under the w9-session localStorage key. -/
structure SessionPayload where
  token : String
  email : String
  role : Role
  mustChangePassword : Bool
deriving DecidableEq, Repr

/-- Embedded from src/unnamed/part_004 (loadSession): the browser environment
the function reads. isBrowser models the window check, stored models
localStorage.getItem returning a string or null, and parse models JSON.parse
on the raw string, which either returns a value (unsafely cast to
SessionPayload in the source) or throws, modelled as Except with the thrown
message. -/
structure JsEnv where
  isBrowser : Bool
  stored : Option String
  parse : String → Except String SessionPayload

/-- Embedded from src/unnamed/part_004 lines 109 to 117 (loadSession): outside
a browser it returns null; otherwise it reads the stored raw value, returns
null for a missing or empty (falsy) string, parses a non-empty string, and the
surrounding try/catch turns any thrown parse error into null. -/
def loadSession (env : JsEnv) : Option SessionPayload :=
  if env.isBrowser then
    match env.stored with
    | none => none
    | some raw =>
        if raw == "" then none
        else
          match env.parse raw with
          | Except.ok p => some p
          | Except.error _ => none
  else
    none

/-- Concrete data for witness evaluation: an active Microsoft-mailbox
credential. -/
def opsAccount : Account :=
  { id := 1, email := "ops@w9.nu", displayName := "Ops Bot", password := "pw1",
    isActive := true, ownerId := none, isPublic := true }

/-- Concrete data for witness evaluation: a deactivated credential. -/
def dormantAccount : Account :=
  { id := 2, email := "idle@w9.nu", displayName := "Idle Bot", password := "pw2",
    isActive := false, ownerId := none, isPublic := false }

/-- Concrete data for witness evaluation: an alias that is itself active but
whose parent credential is the deactivated account. -/
def promoAlias : EmailAlias :=
  { id := 7, aliasEmail := "promo@w9.nu", displayName := some "Promo Bot",
    isActive := true, accountId := 2, ownerId := none, isPublic := true }

/-- Concrete data for witness evaluation: an admin user row. -/
def rootUser : User :=
  { id := 1, email := "root@w9.nu", passwordHash := hashPw "secret123",
    role := Role.admin, mustChangePassword := false }

/-- Concrete data for witness evaluation: a user row with the forced
password-change flag set. -/
def gatedUser : User :=
  { id := 2, email := "a@x.com", passwordHash := hashPw "secret123",
    role := Role.user, mustChangePassword := true }

/-- Concrete data for witness evaluation: a store populated with the rows
above, one pending signup token and one password-reset token. -/
def demoStore : Store :=
  { users := [rootUser, gatedUser],
    accounts := [opsAccount, dormantAccount],
    aliases := [promoAlias],
    pending := [{ token := "sig1", email := "new@x.com",
                  passwordHash := hashPw "welcome123", createdAt := 100 }],
    resets := [{ token := "rst1", userId := 2, createdAt := 100 }],
    defaultSender := none }

/-- Concrete data for witness evaluation: the admin session principal of
rootUser. -/
def adminPrincipal : Principal :=
  { userId := 1, role := Role.admin, mustChangePassword := false }

/-- Concrete data for witness evaluation: a send request from the active
account address. -/
def demoSendRequest : SendRequest :=
  { fromAddr := "ops@w9.nu", toAddr := "to@x.com", subject := "Hi",
    body := "Hello", cc := none, bcc := none, isHtml := false }

/-- Concrete data for witness evaluation: a browser environment whose stored
value is malformed, so JSON.parse throws. -/
def throwingEnv : JsEnv :=
  { isBrowser := true, stored := some "not-json",
    parse := fun _ => Except.error "SyntaxError" }

/-- Helper: a list filtered to discard every element whose key equals t has no
element whose key equals t. -/
theorem find_after_filter_ne {α : Type} (f : α → String) (t : String) (l : List α) :
    (l.filter (fun x => f x != t)).find? (fun x => f x == t) = none := by
  rw [List.find?_eq_none]
  intro x hx h
  have h2 := (List.mem_filter.mp hx).2
  simp only [bne_iff_ne, ne_eq, decide_eq_true_eq] at h2
  simp only [beq_iff_eq] at h
  exact h2 h

/-- Helper: filtering cannot make a search succeed that failed on the whole
list. -/
theorem find_none_of_filter {α : Type} (p q : α → Bool) (l : List α)
    (h : l.find? p = none) : (l.filter q).find? p = none := by
  rw [List.find?_eq_none] at h ⊢
  intro x hx
  exact h x (List.mem_filter.mp hx).1

/-- Helper: a Verify call on a store without the token fails and leaves the
store unchanged. -/
theorem verify_absent (st : Store) (tok : String) (now nid : Nat)
    (h : findPendingByToken st tok = none) :
    verify st tok now nid = (Except.error Err.tokenExpired, st) := by
  simp [verify, h]

/-- Helper: no Verify call can introduce a pending token that was absent. -/
theorem verify_preserves_absent (st : Store) (tok : String) (now nid : Nat)
    (t : String) (h : findPendingByToken st t = none) :
    findPendingByToken (verify st tok now nid).2 t = none := by
  unfold verify
  cases hf : findPendingByToken st tok with
  | none => simpa using h
  | some pu =>
      by_cases hexp : pu.createdAt + tokenTtl < now
      · simp only [hexp, if_true]
        simp only [findPendingByToken, removePending] at h ⊢
        exact find_none_of_filter _ _ _ h
      · simp only [hexp, if_false]
        simp only [findPendingByToken, removePending] at h ⊢
        exact find_none_of_filter _ _ _ h

/-- Helper: a successful Verify call removes the consumed token from the
store. -/
theorem verify_ok_removes (st : Store) (tok : String) (now nid : Nat)
    (st' : Store) (h : verify st tok now nid = (Except.ok (), st')) :
    findPendingByToken st' tok = none := by
  unfold verify at h
  cases hf : findPendingByToken st tok with
  | none => rw [hf] at h; simp at h
  | some pu =>
      rw [hf] at h
      by_cases hexp : pu.createdAt + tokenTtl < now
      · simp [hexp] at h
      · simp only [hexp, if_false, Prod.mk.injEq] at h
        rw [← h.2]
        simp only [findPendingByToken, removePending]
        exact find_after_filter_ne _ _ _

/-- Helper: once the token is gone, every later Verify call with it fails, so
a verify-call sequence records no success for it. -/
theorem runVerifies_absent (calls : List (String × Nat)) :
    ∀ (st : Store) (nid : Nat) (t : String),
    findPendingByToken st t = none →
    successesFor t calls (runVerifies st calls nid) = 0 := by
  induction calls with
  | nil => intro st nid t _; rfl
  | cons c rest ih =>
      intro st nid t h
      obtain ⟨tok, now⟩ := c
      by_cases ht : tok = t
      · subst ht
        rw [runVerifies, verify_absent st tok now nid h]
        simp only [successesFor, isOk]
        rw [ih st (nid + 1) tok h]
        simp
      · rw [runVerifies]
        simp only [successesFor]
        have hne : (tok == t) = false := by simp [ht]
        rw [hne, ih _ (nid + 1) t (verify_preserves_absent st tok now nid t h)]
        simp

/-- Helper: a ConfirmReset call on a store without the token fails and leaves
the store unchanged. -/
theorem confirm_absent (st : Store) (tok pw : String) (now : Nat)
    (h : findResetByToken st tok = none) :
    confirmReset st tok pw now = (Except.error Err.tokenExpired, st) := by
  simp [confirmReset, h]

/-- Helper: once the reset token is gone, every further identical ConfirmReset
call fails. -/
theorem runConfirmN_absent (m : Nat) (st : Store) (tok pw : String) (now : Nat)
    (h : findResetByToken st tok = none) :
    runConfirmN st tok pw now m = List.replicate m false := by
  induction m with
  | zero => rfl
  | succ k ih =>
      rw [runConfirmN, confirm_absent st tok pw now h]
      simp only [isOk, List.replicate]
      rw [ih]

/-- Helper: a ConfirmReset call with the token present, unexpired, and a valid
new password succeeds, and its post-state no longer contains the token. -/
theorem confirm_success (st : Store) (tok pw : String) (now : Nat)
    (rt : ResetToken) (hfind : findResetByToken st tok = some rt)
    (hfresh : now ≤ rt.createdAt + tokenTtl) (hlen : 8 ≤ pw.length) :
    isOk (confirmReset st tok pw now).1 = true ∧
    findResetByToken (confirmReset st tok pw now).2 tok = none := by
  have hexp : ¬ (rt.createdAt + tokenTtl < now) := Nat.not_lt.mpr hfresh
  have hl : ¬ (pw.length < 8) := Nat.not_lt.mpr hlen
  unfold confirmReset
  rw [hfind]
  simp only [hexp, if_false, hl, isOk]
  constructor
  · trivial
  · simp only [findResetByToken, removeReset]
    exact find_after_filter_ne _ _ _

/-- Claim C1, counterexample. The claim states that a send request by an admin
principal is rejected before delivery, but the API documentation shipped in
src/frontend/app/docs/page.tsx lines 167 to 170 declares POST /api/send
available to the admin role: at the concrete input Role.admin the documented
role check permits the request, while the role check transcribed from the
spec sentence would reject it. -/
theorem docs_permit_admin_send :
    docsSendRoleAllowed Role.admin = true ∧ specSendRoleAllowed Role.admin = false := by
  exact ⟨rfl, rfl⟩

/-- Claim C1, amended: for every send request, principals of every role (user,
dev, and also admin, which the documentation permits rather than rejects) may
send while their must-change-password flag is false; the gateway then resolves
the from address and hands the composed message to the SMTP collaborator,
propagating a resolution failure without attempting delivery, and a principal
whose must-change-password flag is true is rejected Forbidden. -/
theorem send_gateway_roles_amended :
    ∀ (st : Store) (p : Principal) (req : SendRequest),
    (p.mustChangePassword = true → send st p req = Except.error Err.forbidden) ∧
    (docsSendRoleAllowed p.role = true) ∧
    (∀ rs, p.mustChangePassword = false → resolveSender st req.fromAddr = Except.ok rs →
      send st p req = Except.ok
        { resolved := rs, toList := parseAddrList req.toAddr,
          ccList := parseOptAddrList req.cc, bccList := parseOptAddrList req.bcc,
          subject := req.subject, body := req.body, isHtml := req.isHtml }) ∧
    (∀ e, p.mustChangePassword = false → resolveSender st req.fromAddr = Except.error e →
      send st p req = Except.error e) := by
  intro st p req
  have hall : ∀ r : Role, docsSendRoleAllowed r = true := by
    intro r
    cases r <;> rfl
  refine ⟨?_, hall p.role, ?_, ?_⟩
  · intro h
    simp [send, h]
  · intro rs hflag hres
    simp [send, hflag, hall p.role, hres]
  · intro e hflag hres
    simp [send, hflag, hall p.role, hres]

/-- Claim C1, witness: the admin principal sends successfully through the
active account of the demo store. -/
theorem send_gateway_roles_amended_witness :
    send demoStore adminPrincipal demoSendRequest = Except.ok
      { resolved := { credentialAccount := opsAccount, displayIdentity := "Ops Bot",
                      isAlias := false },
        toList := ["to@x.com"], ccList := [], bccList := [],
        subject := "Hi", body := "Hello", isHtml := false } :=
  (send_gateway_roles_amended demoStore adminPrincipal demoSendRequest).2.2.1
    { credentialAccount := opsAccount, displayIdentity := "Ops Bot", isAlias := false }
    rfl rfl

/-- Claim C2: for every store and every admin principal, a DELETE /users/:id
call whose target id equals the acting principal user id fails Forbidden and
returns the store unchanged; the store is universally quantified, so the
refusal holds regardless of the role field stored on the target row. -/
theorem admin_cannot_delete_self :
    ∀ (st : Store) (p : Principal), p.role = Role.admin →
    deleteUser st p p.userId = (Except.error Err.forbidden, st) := by
  intro st p h
  simp [deleteUser, h]

/-- Claim C2, witness: the demo admin principal cannot delete its own user
row. -/
theorem admin_cannot_delete_self_witness :
    deleteUser demoStore adminPrincipal 1 = (Except.error Err.forbidden, demoStore) :=
  admin_cannot_delete_self demoStore adminPrincipal rfl

/-- Claim C6: sender resolution fails SenderNotFound when no account or alias
matches the address, when the matching account is inactive, when the matching
alias is inactive, and in particular when the alias is active but its parent
account is inactive. -/
theorem resolve_sender_inactive_fails :
    ∀ (st : Store) (a : String),
    (findAccountByEmail st a = none → findAliasByEmail st a = none →
      resolveSender st a = Except.error Err.senderNotFound) ∧
    (∀ acc, findAccountByEmail st a = some acc → acc.isActive = false →
      resolveSender st a = Except.error Err.senderNotFound) ∧
    (∀ al, findAccountByEmail st a = none → findAliasByEmail st a = some al →
      al.isActive = false → resolveSender st a = Except.error Err.senderNotFound) ∧
    (∀ al parent, findAccountByEmail st a = none → findAliasByEmail st a = some al →
      al.isActive = true → findAccountById st al.accountId = some parent →
      parent.isActive = false → resolveSender st a = Except.error Err.senderNotFound) := by
  intro st a
  refine ⟨?_, ?_, ?_, ?_⟩
  · intro h1 h2
    simp [resolveSender, h1, h2]
  · intro acc h1 h2
    simp [resolveSender, h1, h2]
  · intro al h1 h2 h3
    simp [resolveSender, h1, h2, h3]
  · intro al parent h1 h2 h3 h4 h5
    simp [resolveSender, h1, h2, h3, h4, h5]

/-- Claim C6, witness: the demo alias is active but rides on the deactivated
credential, so resolving its address fails. -/
theorem resolve_sender_inactive_fails_witness :
    resolveSender demoStore "promo@w9.nu" = Except.error Err.senderNotFound :=
  (resolve_sender_inactive_fails demoStore "promo@w9.nu").2.2.2 promoAlias dormantAccount
    rfl rfl rfl rfl rfl

/-- Claim C7: SetDefaultSender commits only when the referenced entity exists
and is currently active, failing ValidationError with the stored setting
unchanged otherwise; after a successful set, GetDefaultSender echoes the
setting with the activeness recomputed at read time as true. -/
theorem default_sender_set_get :
    ∀ (st : Store) (t : SenderType) (i : Nat),
    (defaultTargetActive st t i = false →
      setDefaultSender st t i = (Except.error Err.validationError, st)) ∧
    (defaultTargetActive st t i = true →
      setDefaultSender st t i =
        (Except.ok (), { st with defaultSender := some { senderType := t, senderId := i } }) ∧
      getDefaultSender { st with defaultSender := some { senderType := t, senderId := i } } =
        some { senderType := t, senderId := i, isActive := true }) := by
  intro st t i
  constructor
  · intro h
    simp [setDefaultSender, h]
  · intro h
    constructor
    · simp [setDefaultSender, h]
    · have hsame : defaultTargetActive
          { st with defaultSender := some { senderType := t, senderId := i } } t i =
          defaultTargetActive st t i := by
        cases t <;> rfl
      simp [getDefaultSender, hsame, h]

/-- Claim C7, witness: pointing the default sender at the active demo account
succeeds and the getter echoes it as active. -/
theorem default_sender_set_get_witness :
    getDefaultSender
      { demoStore with defaultSender := some { senderType := SenderType.account, senderId := 1 } } =
      some { senderType := SenderType.account, senderId := 1, isActive := true } :=
  ((default_sender_set_get demoStore SenderType.account 1).2 rfl).2

/-- Claim C8: for a session-authenticated ChangePassword request whose current
password verifies, a new password shorter than 8 characters is rejected with
ValidationError and the user row (stored hash and must-change-password flag)
is returned unchanged; with a new password of length at least 8 the call
succeeds, the hash is replaced, and must_change_password is cleared. -/
theorem change_password_validation :
    ∀ (u : User) (current new : String),
    (verifyPw current u.passwordHash = true → new.length < 8 →
      userStep u (UAction.changePassword current new) =
        (Except.error Err.validationError, u)) ∧
    (verifyPw current u.passwordHash = true → 8 ≤ new.length →
      userStep u (UAction.changePassword current new) =
        (Except.ok (), { u with passwordHash := hashPw new, mustChangePassword := false })) := by
  intro u current new
  constructor
  · intro hver hlen
    simp [userStep, isChangePw, changePasswordFn, hver, hlen]
  · intro hver hlen
    have hl : ¬ (new.length < 8) := Nat.not_lt.mpr hlen
    simp [userStep, isChangePw, changePasswordFn, hver, hl]

/-- Claim C8, witness: the root user offering the right current password and a
5-character replacement is rejected with ValidationError and left unchanged. -/
theorem change_password_validation_witness :
    userStep rootUser (UAction.changePassword "secret123" "short") =
      (Except.error Err.validationError, rootUser) :=
  (change_password_validation rootUser "secret123" "short").1 rfl (by decide)

/-- Claim C9: the RequestReset response is identical for every pair of emails,
one belonging to an existing user and one not, so the response reveals
nothing about whether the email exists; only the stored state may differ. -/
theorem request_reset_uniform_response :
    ∀ (st : Store) (e1 e2 freshTok : String) (now : Nat),
    (requestReset st e1 freshTok now).1 = (requestReset st e2 freshTok now).1 := by
  intro st e1 e2 freshTok now
  cases h1 : findUserByEmail st e1 <;> cases h2 : findUserByEmail st e2 <;>
    simp [requestReset, h1, h2]

/-- Claim C10: loadSession is total over the modelled browser environment. It
returns none outside a browser, none when nothing is stored, none when the
stored value makes JSON.parse throw (the exception is caught, never
propagated), the parsed payload when parsing succeeds on a non-empty stored
string, and every non-none result comes from a successful parse of the stored
value. -/
theorem load_session_total :
    ∀ env : JsEnv,
    (env.isBrowser = false → loadSession env = none) ∧
    (env.stored = none → loadSession env = none) ∧
    (∀ raw e, env.stored = some raw → env.parse raw = Except.error e →
      loadSession env = none) ∧
    (∀ raw p, env.isBrowser = true → env.stored = some raw → raw ≠ "" →
      env.parse raw = Except.ok p → loadSession env = some p) ∧
    (∀ p, loadSession env = some p →
      env.isBrowser = true ∧ ∃ raw, env.stored = some raw ∧ env.parse raw = Except.ok p) := by
  intro env
  refine ⟨?_, ?_, ?_, ?_, ?_⟩
  · intro h
    simp [loadSession, h]
  · intro h
    by_cases hb : env.isBrowser <;> simp [loadSession, h, hb]
  · intro raw e hs hp
    by_cases hb : env.isBrowser
    · by_cases hr : raw == ""
      · simp [loadSession, hb, hs, hr]
      · simp [loadSession, hb, hs, hr, hp]
    · simp [loadSession, hb]
  · intro raw p hb hs hr hp
    have hr' : (raw == "") = false := by simp [hr]
    simp [loadSession, hb, hs, hr', hp]
  · intro p h
    by_cases hb : env.isBrowser
    · refine ⟨hb, ?_⟩
      cases hs : env.stored with
      | none => simp [loadSession, hb, hs] at h
      | some raw =>
          refine ⟨raw, rfl, ?_⟩
          by_cases hr : raw == ""
          · simp [loadSession, hb, hs, hr] at h
          · cases hp : env.parse raw with
            | ok q =>
                simp [loadSession, hb, hs, hr, hp] at h
                rw [h]
            | error e => simp [loadSession, hb, hs, hr, hp] at h
    · simp [loadSession, hb] at h

/-- Claim C10, witness: a browser environment whose stored value makes the
parser throw yields none rather than an exception. -/
theorem load_session_total_witness : loadSession throwingEnv = none :=
  (load_session_total throwingEnv).2.2.1 "not-json" "SyntaxError" rfl rfl

/-- Claim C3: while a user has must_change_password set, every
session-authenticated request other than ChangePassword (a /send call
included) is denied Forbidden and leaves the user row unchanged, so the flag
stays set for as long as no ChangePassword is attempted; and a ChangePassword
call that succeeds clears the flag. -/
theorem must_change_password_gate :
    (∀ (u : User) (acts : List UAction), u.mustChangePassword = true →
      (∀ a ∈ acts, isChangePw a = false) →
      runUserTrace u acts = (acts.map (fun _ => Except.error Err.forbidden), u)) ∧
    (∀ (u : User) (current new : String) (u' : User),
      changePasswordFn u current new = Except.ok u' → u'.mustChangePassword = false) := by
  constructor
  · intro u acts hmust
    induction acts with
    | nil => intro _; rfl
    | cons a rest ih =>
        intro hall
        have ha := hall a (List.mem_cons_self a rest)
        have hrest := ih (fun x hx => hall x (List.mem_cons_of_mem a hx))
        have hstep : userStep u a = (Except.error Err.forbidden, u) := by
          simp [userStep, hmust, ha]
        simp [runUserTrace, hstep, hrest]
  · intro u current new u' h
    by_cases hver : verifyPw current u.passwordHash
    · by_cases hlen : new.length < 8
      · simp [changePasswordFn, hver, hlen] at h
      · simp [changePasswordFn, hver, hlen] at h
        rw [← h]
    · simp [changePasswordFn, hver] at h

/-- Claim C3, witness: the gated demo user attempting a send and another
action gets Forbidden on both and keeps the flag set. -/
theorem must_change_password_gate_witness :
    runUserTrace gatedUser [UAction.sendMail, UAction.other "listAccounts"] =
      ([Except.error Err.forbidden, Except.error Err.forbidden], gatedUser) :=
  must_change_password_gate.1 gatedUser [UAction.sendMail, UAction.other "listAccounts"]
    rfl (by decide)

/-- Claim C4: in any sequence of Verify calls run from any store, each call
being one atomic read-and-delete step, at most one call with a given token
succeeds: after the first success the row is gone and every subsequent call
with the same token fails, so success is never returned twice. -/
theorem verify_token_single_success :
    ∀ (st : Store) (calls : List (String × Nat)) (nid : Nat) (t : String),
    successesFor t calls (runVerifies st calls nid) ≤ 1 := by
  intro st calls
  revert st
  induction calls with
  | nil =>
      intro st nid t
      simp [runVerifies, successesFor]
  | cons c rest ih =>
      intro st nid t
      obtain ⟨tok, now⟩ := c
      rw [runVerifies]
      by_cases ht : tok = t
      · subst ht
        cases hr : (verify st tok now nid).1 with
        | error e =>
            simp only [successesFor, hr, isOk, Bool.and_false, if_false]
            simpa using ih _ (nid + 1) tok
        | ok val =>
            cases val
            have hfull : verify st tok now nid = (Except.ok (), (verify st tok now nid).2) := by
              rw [← hr]
            have habs := verify_ok_removes st tok now nid _ hfull
            have h0 := runVerifies_absent rest (verify st tok now nid).2 (nid + 1) tok habs
            simp [successesFor, hr, isOk, h0]
      · have hne : (tok == t) = false := by simp [ht]
        simp only [successesFor, hne, Bool.false_and, if_false]
        simpa using ih _ (nid + 1) t

/-- Claim C5: N identical ConfirmReset calls with the same live token and a
valid new password, N at least 2, executed as atomic check-and-invalidate
steps (so any concurrent interleaving equals this sequential run), yield
exactly one success and N minus 1 failures. -/
theorem confirm_reset_exactly_one_success :
    ∀ (st : Store) (tok pw : String) (now n : Nat) (rt : ResetToken),
    2 ≤ n → findResetByToken st tok = some rt → now ≤ rt.createdAt + tokenTtl →
    8 ≤ pw.length →
    (runConfirmN st tok pw now n).count true = 1 ∧
    (runConfirmN st tok pw now n).count false = n - 1 := by
  intro st tok pw now n rt hn hfind hfresh hlen
  obtain ⟨m, rfl⟩ : ∃ m, n = m + 1 := ⟨n - 1, by omega⟩
  have hsucc := confirm_success st tok pw now rt hfind hfresh hlen
  rw [runConfirmN, hsucc.1, runConfirmN_absent m _ tok pw now hsucc.2]
  constructor
  · simp [List.count_cons, List.count_replicate]
  · simp [List.count_cons, List.count_replicate]

/-- Claim C5, witness: three racing confirmations of the demo reset token
produce one success and two failures. -/
theorem confirm_reset_exactly_one_success_witness :
    (runConfirmN demoStore "rst1" "newsecret99" 150 3).count true = 1 ∧
    (runConfirmN demoStore "rst1" "newsecret99" 150 3).count false = 2 :=
  confirm_reset_exactly_one_success demoStore "rst1" "newsecret99" 150 3
    { token := "rst1", userId := 2, createdAt := 100 }
    (by decide) rfl (by decide) (by decide)

end W9Mail
